import Mathlib

/-!
Shallow embedding of the reconciliation/validation engine of the
deneme-analiz backend (`app/services/validation_service.py`) and of the
exam-confirmation route (`app/api/routes/exams.py`), together with
theorems settling the specification claims about them.

Python dictionaries are modelled as association lists over a small value
type `PyVal` (numbers, strings, `None`); numbers are modelled as rationals.
Python code that can raise is embedded in `Except PyErr`.
-/

namespace DenemeAnaliz

/-- Decidable equality for `Except`, used to evaluate the embedded
functions on concrete inputs. -/
instance {ε α : Type} [DecidableEq ε] [DecidableEq α] : DecidableEq (Except ε α) := fun a b =>
  match a, b with
  | .ok x, .ok y =>
    if h : x = y then .isTrue (by rw [h]) else .isFalse (fun hh => h (Except.ok.inj hh))
  | .error x, .error y =>
    if h : x = y then .isTrue (by rw [h]) else .isFalse (fun hh => h (Except.error.inj hh))
  | .ok _, .error _ => .isFalse (fun hh => Except.noConfusion hh)
  | .error _, .ok _ => .isFalse (fun hh => Except.noConfusion hh)

/-- Python runtime errors that the embedded code can raise. -/
inductive PyErr where
  | keyError
  | typeError
  | attributeError
  deriving Repr, DecidableEq

/-- The Python values that flow through the validation engine:
numbers (ints and floats, modelled as rationals), strings, and `None`. -/
inductive PyVal where
  | vnum (q : ℚ)
  | vstr (s : String)
  | vnone
  deriving Repr, DecidableEq

/-- A Python dict with string keys, as an association list.  Keys of a
real Python dict are unique; lookup takes the first match. -/
abbrev Dict := List (String × PyVal)

/-- Key lookup: `some v` when the key is present (even with value `None`),
`none` when the key is absent.  Models `k in d` / `d[k]`. -/
def getKey? (d : Dict) (k : String) : Option PyVal :=
  (d.find? (fun p => decide (p.1 = k))).map (fun p => p.2)

/-- Models Python `k in d`. -/
def hasKey (d : Dict) (k : String) : Bool :=
  (getKey? d k).isSome

/-- Models Python `d.get(k)`: absent key yields `None`. -/
def pyGet (d : Dict) (k : String) : PyVal :=
  (getKey? d k).getD .vnone

/-- Models Python `d.get(k, default)`. -/
def pyGetD (d : Dict) (k : String) (v : PyVal) : PyVal :=
  (getKey? d k).getD v

/-- Python truthiness of a value: `0`, `""` and `None` are falsy. -/
def truthy : PyVal → Bool
  | .vnum q => decide (q ≠ 0)
  | .vstr s => decide (s ≠ "")
  | .vnone => false

/-- Python truthiness of a dict: empty dicts are falsy. -/
def dictTruthy (d : Dict) : Bool :=
  !d.isEmpty

/-- Model of Python `str.strip()`: drop whitespace from both ends. -/
def pyStrip (s : String) : String :=
  ⟨((s.data.dropWhile Char.isWhitespace).reverse.dropWhile Char.isWhitespace).reverse⟩

/-- Model of Python `str.lower()`, restricted to the ASCII range. -/
def pyLower (s : String) : String :=
  ⟨s.data.map Char.toLower⟩

/-- Value of a list of decimal digit characters. -/
def digitsVal (cs : List Char) : ℚ :=
  cs.foldl (fun a c => 10 * a + ((c.toNat - 48 : ℕ) : ℚ)) 0

/-- Model of Python `float()` applied to a string, restricted to plain
decimal literals with optional sign and fraction part (the exponent,
`inf` and `nan` forms do not occur in this repository's data).
Unparseable strings yield `none` (Python raises `ValueError`). -/
def pyFloatOfString (s : String) : Option ℚ :=
  let cs := (pyStrip s).data
  let signed : ℚ × List Char :=
    match cs with
    | '-' :: rest => (-1, rest)
    | '+' :: rest => (1, rest)
    | _ => (1, cs)
  let sign := signed.1
  let body := signed.2
  let intPart := body.takeWhile Char.isDigit
  let rest := body.dropWhile Char.isDigit
  match rest with
  | [] =>
    if intPart.isEmpty then none else some (sign * digitsVal intPart)
  | '.' :: frac =>
    if frac.all Char.isDigit ∧ ¬(intPart.isEmpty ∧ frac.isEmpty) then
      some (sign * (digitsVal intPart + digitsVal frac / (10 : ℚ) ^ frac.length))
    else none
  | _ => none

/-- Model of Python `float()` applied to a value: numbers pass through,
strings are parsed, everything else raises (`none`). -/
def pyFloat : PyVal → Option ℚ
  | .vnum q => some q
  | .vstr s => pyFloatOfString s
  | .vnone => none

/-- `ValidationService._numeric_match`: coerce both values with `float()`
(any failure is caught and yields `False`); exact equality matches;
otherwise, when the average magnitude is zero compare absolutely at 0.01,
else compare the symmetric relative difference against the tolerance. -/
def numericMatch (tolerance : ℚ) (val1 val2 : PyVal) : Bool :=
  match pyFloat val1, pyFloat val2 with
  | some v1, some v2 =>
    if v1 = v2 then true
    else
      let avg := (|v1| + |v2|) / 2
      if avg = 0 then decide (|v1 - v2| < 1 / 100)
      else decide (|v1 - v2| / avg ≤ tolerance)
  | _, _ => false

/-- Does the character list `a` occur contiguously at the head of `b`? -/
def matchesAt : List Char → List Char → Bool
  | [], _ => true
  | _ :: _, [] => false
  | x :: xs, y :: ys => x = y && matchesAt xs ys

/-- Does the character list `a` occur contiguously anywhere in `b`?
Models Python `a in b` on strings. -/
def occursIn (a b : List Char) : Bool :=
  match b with
  | [] => a.isEmpty
  | _ :: bs => matchesAt a b || occursIn a bs

/-- Python `sum(1 for c in s1 if c in s2)`. -/
def countCommon (s1 s2 : String) : ℕ :=
  s1.data.countP (fun c => s2.data.contains c)

/-- Core of `ValidationService._fuzzy_match` on two (truthy) strings:
normalize by lowercasing and stripping, then exact match, then substring
containment either way, then the shared-character ratio against the
threshold. -/
def fuzzyMatchStr (str1 str2 : String) (threshold : ℚ) : Bool :=
  let s1 := pyStrip (pyLower str1)
  let s2 := pyStrip (pyLower str2)
  if s1 = s2 then true
  else if s1.length = 0 ∨ s2.length = 0 then false
  else if occursIn s1.data s2.data || occursIn s2.data s1.data then true
  else
    decide (((countCommon s1 s2 : ℚ)) / ((max s1.length s2.length : ℕ) : ℚ) ≥ threshold)

/-- `ValidationService._fuzzy_match` on arbitrary values: a falsy argument
yields `False`; truthy non-strings raise `AttributeError` when `.lower()`
is called on them. -/
def fuzzyMatch (v1 v2 : PyVal) (threshold : ℚ) : Except PyErr Bool :=
  if ¬ truthy v1 ∨ ¬ truthy v2 then .ok false
  else
    match v1, v2 with
    | .vstr s1, .vstr s2 => .ok (fuzzyMatchStr s1 s2 threshold)
    | _, _ => .error .attributeError

/-- One discrepancy found during a validate call (class `ValidationIssue`). -/
structure ValidationIssue where
  field : String
  claude_value : PyVal
  local_value : PyVal
  severity : String
  deriving Repr, DecidableEq

/-- One of the two comparisons of `ValidationService._validate_student_info`
(name or school), parameterised by the dict key, the issue field label,
the fuzzy threshold and the severity used at that call site.  The
comparison runs only when the local value is truthy; the claude value
defaults to the empty string. -/
def checkStudentField (cs ls : Dict) (key label : String) (threshold : ℚ)
    (sev : String) : Except PyErr (List ValidationIssue) :=
  if truthy (pyGet ls key) then do
    let m ← fuzzyMatch (pyGetD cs key (.vstr "")) (pyGet ls key) threshold
    if m then .ok [] else .ok [⟨label, pyGet cs key, pyGet ls key, sev⟩]
  else .ok []

/-- `ValidationService._validate_student_info`: skipped entirely when the
local student dict is falsy; otherwise the name check (threshold 0.8,
severity warning) then the school check (threshold 0.7, severity info). -/
def validateStudentInfo (cs ls : Dict) : Except PyErr (List ValidationIssue) :=
  if ¬ dictTruthy ls then .ok []
  else do
    let ni ← checkStudentField cs ls "name" "student.name" (8 / 10) "warning"
    let si ← checkStudentField cs ls "school" "student.school" (7 / 10) "info"
    .ok (ni ++ si)

/-- The five overall numeric fields, in source order. -/
def overallFields : List String :=
  ["total_questions", "total_correct", "total_wrong", "total_blank", "net_score"]

/-- Severity assignment of `_validate_overall_scores`: the basic counts are
critical. -/
def overallSeverity (f : String) : String :=
  if f = "total_questions" ∨ f = "total_correct" then "error" else "warning"

/-- One iteration of the field loop of `_validate_overall_scores`:
compare when both sides are non-`None`, appending one issue on mismatch. -/
def compareOverallField (tolerance : ℚ) (cs ls : Dict) (f : String) :
    List ValidationIssue :=
  let cv := pyGet cs f
  let lv := pyGet ls f
  if lv ≠ .vnone ∧ cv ≠ .vnone then
    if numericMatch tolerance cv lv then []
    else [⟨"overall." ++ f, cv, lv, overallSeverity f⟩]
  else []

/-- The net-score self-consistency check of `_validate_overall_scores`:
runs when the three keys are present (whatever their values); the Python
arithmetic `correct - wrong / 4` raises `TypeError` unless both operands
are numbers; the comparison uses the tighter 0.05 tolerance. -/
def netCalcIssues (cs : Dict) : Except PyErr (List ValidationIssue) :=
  if hasKey cs "total_correct" ∧ hasKey cs "total_wrong" ∧ hasKey cs "net_score" then
    match pyGet cs "total_correct", pyGet cs "total_wrong" with
    | .vnum c, .vnum w =>
      let expected : ℚ := c - w / 4
      let actual := pyGet cs "net_score"
      if numericMatch (5 / 100) (.vnum expected) actual then .ok []
      else .ok [⟨"overall.net_calculation", actual, .vnum expected, "error"⟩]
    | _, _ => .error .typeError
  else .ok []

/-- `ValidationService._validate_overall_scores`: skipped entirely when the
local scores dict is falsy; otherwise the five field comparisons in order,
then the net-score self-consistency check. -/
def validateOverallScores (tolerance : ℚ) (cs ls : Dict) :
    Except PyErr (List ValidationIssue) :=
  if ¬ dictTruthy ls then .ok []
  else do
    let base := (overallFields.map (compareOverallField tolerance cs ls)).flatten
    let net ← netCalcIssues cs
    .ok (base ++ net)

/-- The dict comprehension of `_validate_subject_scores`:
`s["subject_name"]` raises `KeyError` when a local subject lacks the key;
the resulting pairs keep list order (later entries override on lookup). -/
def buildLocalByName : List Dict → Except PyErr (List (PyVal × Dict))
  | [] => .ok []
  | s :: rest =>
    match getKey? s "subject_name" with
    | none => .error .keyError
    | some name => do
      let tail ← buildLocalByName rest
      .ok ((name, s) :: tail)

/-- Dict lookup with Python overwrite semantics: the last binding wins. -/
def dictLookupLast (m : List (PyVal × Dict)) (k : PyVal) : Option Dict :=
  (m.reverse.find? (fun p => decide (p.1 = k))).map (fun p => p.2)

/-- The five per-subject numeric fields, in source order. -/
def subjectFields : List String :=
  ["total_questions", "correct", "wrong", "blank", "net_score"]

/-- Model of Python `str()` restricted to the value shapes occurring here
(subject names are strings in practice; the numeric rendering is an
approximation of the repr). -/
def pyStr : PyVal → String
  | .vstr s => s
  | .vnone => "None"
  | .vnum q => if q.den = 1 then toString q.num else toString q

/-- One iteration of the field loop of `_validate_subject_scores`:
compare when both sides are non-`None`; every issue is a warning. -/
def compareSubjectField (tolerance : ℚ) (name : PyVal) (cs lsub : Dict)
    (f : String) : List ValidationIssue :=
  if pyGet lsub f ≠ .vnone ∧ pyGet cs f ≠ .vnone then
    if numericMatch tolerance (pyGet cs f) (pyGet lsub f) then []
    else [⟨"subject." ++ pyStr name ++ "." ++ f, pyGet cs f, pyGet lsub f, "warning"⟩]
  else []

/-- The body of the claude-subject loop of `_validate_subject_scores`:
look the claude subject's name up in the local map; when absent, nothing
is compared. -/
def subjectIssuesFor (tolerance : ℚ) (m : List (PyVal × Dict)) (cs : Dict) :
    List ValidationIssue :=
  match dictLookupLast m (pyGet cs "subject_name") with
  | some lsub =>
    (subjectFields.map (compareSubjectField tolerance (pyGet cs "subject_name") cs lsub)).flatten
  | none => []

/-- `ValidationService._validate_subject_scores`: skipped entirely when the
local subject list is empty; otherwise build the name lookup (which can
raise) and compare each claude subject that has a local counterpart. -/
def validateSubjectScores (tolerance : ℚ) (claudeSubjects localSubjects : List Dict) :
    Except PyErr (List ValidationIssue) :=
  if localSubjects.isEmpty then .ok []
  else do
    let m ← buildLocalByName localSubjects
    .ok ((claudeSubjects.map (subjectIssuesFor tolerance m)).flatten)

/-- `ValidationService._validate_metadata`: booklet type must be equal
exactly when the local side has a truthy value; mismatch is a warning. -/
def validateMetadata (ce lm : Dict) : List ValidationIssue :=
  if ¬ dictTruthy lm then []
  else if truthy (pyGet lm "booklet_type") then
    if pyGet ce "booklet_type" ≠ pyGet lm "booklet_type" then
      [⟨"exam.booklet_type", pyGet ce "booklet_type", pyGet lm "booklet_type", "warning"⟩]
    else []
  else []

/-- The claude-side record, as read by `validate`: the four sections it
accesses, each defaulting to an empty dict/list when absent. -/
structure ClaudeData where
  student : Dict
  overall_result : Dict
  subjects : List Dict
  exam : Dict
  deriving Repr, DecidableEq

/-- The local-parser record, as read by `validate`. -/
structure LocalData where
  student_info : Dict
  overall_scores : Dict
  subject_scores : List Dict
  metadata : Dict
  deriving Repr, DecidableEq

/-- The validation report dict returned by `_generate_report`. -/
structure ValidationReport where
  status : String
  total_issues : ℕ
  errors : ℕ
  warnings : ℕ
  info : ℕ
  issues : List ValidationIssue
  summary : String
  deriving Repr, DecidableEq

/-- `ValidationService._generate_summary`. -/
def generateSummary (issues errors warnings info : List ValidationIssue) : String :=
  if issues.isEmpty then
    "Validation passed. Claude output matches local parsing."
  else
    let parts :=
      (if ¬ errors.isEmpty then [toString errors.length ++ " critical error(s)"] else []) ++
      (if ¬ warnings.isEmpty then [toString warnings.length ++ " warning(s)"] else []) ++
      (if ¬ info.isEmpty then [toString info.length ++ " info message(s)"] else [])
    "Validation completed with " ++ String.intercalate ", " parts ++
      ". Review issues for details."

/-- `ValidationService._generate_report`: bucket the accumulated issues by
severity and derive the overall status. -/
def generateReport (issues : List ValidationIssue) : ValidationReport :=
  let errors := issues.filter (fun i => decide (i.severity = "error"))
  let warnings := issues.filter (fun i => decide (i.severity = "warning"))
  let info := issues.filter (fun i => decide (i.severity = "info"))
  let status :=
    if ¬ errors.isEmpty then "failed"
    else if ¬ warnings.isEmpty then "warning"
    else "passed"
  { status := status
    total_issues := issues.length
    errors := errors.length
    warnings := warnings.length
    info := info.length
    issues := issues
    summary := generateSummary issues errors warnings info }

/-- `ValidationService.validate`: the four comparison passes in source
order, accumulating issues, then the report.  A Python exception in any
pass aborts the call. -/
def validate (tolerance : ℚ) (claude_data : ClaudeData) (local_data : LocalData) :
    Except PyErr ValidationReport := do
  let si ← validateStudentInfo claude_data.student local_data.student_info
  let oi ← validateOverallScores tolerance claude_data.overall_result local_data.overall_scores
  let sui ← validateSubjectScores tolerance claude_data.subjects local_data.subject_scores
  let mi := validateMetadata claude_data.exam local_data.metadata
  .ok (generateReport (si ++ oi ++ sui ++ mi))

/-- The mutable state of one `ValidationService` instance: the configured
tolerance and the `self.issues` accumulator. -/
structure ValidationService where
  tolerance : ℚ
  issues : List ValidationIssue
  deriving Repr, DecidableEq

/-- `ValidationService.validate` with the instance state made explicit:
`self.issues` is overwritten with `[]` on entry, each pass appends its
issues, and the final state carries the full accumulated list.  When a
pass raises, the state keeps the issues accumulated by the completed
passes (intra-pass accumulation is approximated at pass granularity,
which no stated property depends on). -/
def ValidationService.validateRun (svc : ValidationService) (c : ClaudeData)
    (l : LocalData) : ValidationService × Except PyErr ValidationReport :=
  match validateStudentInfo c.student l.student_info with
  | .error e => ({ svc with issues := [] }, .error e)
  | .ok si =>
    match validateOverallScores svc.tolerance c.overall_result l.overall_scores with
    | .error e => ({ svc with issues := si }, .error e)
    | .ok oi =>
      match validateSubjectScores svc.tolerance c.subjects l.subject_scores with
      | .error e => ({ svc with issues := si ++ oi }, .error e)
      | .ok sui =>
        let all := si ++ oi ++ sui ++ validateMetadata c.exam l.metadata
        ({ svc with issues := all }, .ok (generateReport all))

/-- The state visible to one `validate` call: the two input records and the
contents of persistent storage.  The embedding threads this state through
the call so that mutation, were the source to perform any, would be
observable; since every operation the Python code performs on the inputs
is a read (`.get`, key lookup, iteration) and the service touches no
storage, the state is returned unchanged. -/
structure World where
  claude_data : ClaudeData
  local_data : LocalData
  storage : List String
  deriving Repr, DecidableEq

/-- `validate` as a state transformer on `World`. -/
def validateWorld (tolerance : ℚ) (w : World) : World × Except PyErr ValidationReport :=
  (w, validate tolerance w.claude_data w.local_data)

/-- One payload of `Exam.claude_data` / `Exam.local_data` as read by
`confirm_exam` after `json.loads`: the required sections are optional at
the JSON level (`chosen_data["overall_result"]` and
`chosen_data["subjects"]` raise `KeyError` when absent), the other two
default to the empty list via `.get`. -/
structure ExtractionPayload where
  overall_result : Option Dict
  subjects : Option (List Dict)
  learning_outcomes : List Dict
  questions : List Dict
  deriving Repr, DecidableEq

/-- One row of the `exams` table, with the JSON text columns modelled as
their parsed payloads; `none` stands for a NULL or empty (falsy) column. -/
structure ExamRow where
  id : String
  status : String
  claude_data : Option ExtractionPayload
  local_data : Option ExtractionPayload
  confirmed_at : Option ℕ
  deriving Repr, DecidableEq

/-- One `exam_results` row created by `confirm_exam`. -/
structure ExamResultRow where
  exam_id : String
  total_questions : PyVal
  total_correct : PyVal
  total_wrong : PyVal
  total_blank : PyVal
  net_score : PyVal
  net_percentage : PyVal
  class_rank : PyVal
  class_total : PyVal
  school_rank : PyVal
  school_total : PyVal
  class_avg : PyVal
  school_avg : PyVal
  deriving Repr, DecidableEq

/-- One `subject_results` row created by `confirm_exam`. -/
structure SubjectResultRow where
  exam_id : String
  subject_name : PyVal
  total_questions : PyVal
  correct : PyVal
  wrong : PyVal
  blank : PyVal
  net_score : PyVal
  net_percentage : PyVal
  class_rank : PyVal
  class_avg : PyVal
  school_rank : PyVal
  school_avg : PyVal
  deriving Repr, DecidableEq

/-- One `learning_outcomes` row created by `confirm_exam`. -/
structure LearningOutcomeRow where
  exam_id : String
  subject_name : PyVal
  category : PyVal
  subcategory : PyVal
  outcome_description : PyVal
  total_questions : PyVal
  acquired : PyVal
  lost : PyVal
  success_rate : PyVal
  student_percentage : PyVal
  class_percentage : PyVal
  school_percentage : PyVal
  deriving Repr, DecidableEq

/-- One `questions` row created by `confirm_exam`. -/
structure QuestionRow where
  exam_id : String
  subject_name : PyVal
  question_number : PyVal
  correct_answer : PyVal
  student_answer : PyVal
  is_correct : PyVal
  is_blank : PyVal
  deriving Repr, DecidableEq

/-- The tables `confirm_exam` reads and writes. -/
structure ConfirmDB where
  exams : List ExamRow
  exam_results : List ExamResultRow
  subject_results : List SubjectResultRow
  learning_outcomes : List LearningOutcomeRow
  questions : List QuestionRow
  deriving Repr, DecidableEq

/-- The observable outcome of one `confirm_exam` request: the success
response, an `HTTPException`, or a propagated Python error. -/
inductive ConfirmOutcome where
  | success (message exam_id data_source status : String)
  | httpError (code : ℕ) (detail : String)
  | pyError (e : PyErr)
  deriving Repr, DecidableEq

/-- Required dict access `d[k]`: raises `KeyError` when the key is absent. -/
def reqKey (d : Dict) (k : String) : Except PyErr PyVal :=
  match getKey? d k with
  | some v => .ok v
  | none => .error .keyError

/-- The `ExamResult(...)` construction of `confirm_exam`. -/
def buildExamResult (eid : String) (overall : Dict) : Except PyErr ExamResultRow := do
  let tq ← reqKey overall "total_questions"
  let tc ← reqKey overall "total_correct"
  let tw ← reqKey overall "total_wrong"
  let tb ← reqKey overall "total_blank"
  let ns ← reqKey overall "net_score"
  let np ← reqKey overall "net_percentage"
  .ok ⟨eid, tq, tc, tw, tb, ns, np, pyGet overall "class_rank", pyGet overall "class_total",
    pyGet overall "school_rank", pyGet overall "school_total", pyGet overall "class_avg",
    pyGet overall "school_avg"⟩

/-- The `SubjectResult(...)` construction of `confirm_exam`. -/
def buildSubjectResult (eid : String) (d : Dict) : Except PyErr SubjectResultRow := do
  let sn ← reqKey d "subject_name"
  let tq ← reqKey d "total_questions"
  let c ← reqKey d "correct"
  let w ← reqKey d "wrong"
  let b ← reqKey d "blank"
  let ns ← reqKey d "net_score"
  let np ← reqKey d "net_percentage"
  .ok ⟨eid, sn, tq, c, w, b, ns, np, pyGet d "class_rank", pyGet d "class_avg",
    pyGet d "school_rank", pyGet d "school_avg"⟩

/-- The `LearningOutcome(...)` construction of `confirm_exam`. -/
def buildLearningOutcome (eid : String) (d : Dict) : Except PyErr LearningOutcomeRow := do
  let sn ← reqKey d "subject_name"
  let tq ← reqKey d "total_questions"
  let aq ← reqKey d "acquired"
  let lo ← reqKey d "lost"
  .ok ⟨eid, sn, pyGet d "category", pyGet d "subcategory", pyGet d "outcome_description",
    tq, aq, lo, pyGet d "success_rate", pyGet d "student_percentage",
    pyGet d "class_percentage", pyGet d "school_percentage"⟩

/-- The `Question(...)` construction of `confirm_exam`. -/
def buildQuestion (eid : String) (d : Dict) : Except PyErr QuestionRow := do
  let sn ← reqKey d "subject_name"
  let qn ← reqKey d "question_number"
  let ca ← reqKey d "correct_answer"
  let ic ← reqKey d "is_correct"
  let ib ← reqKey d "is_blank"
  .ok ⟨eid, sn, qn, ca, pyGet d "student_answer", ic, ib⟩

/-- Traverse a builder over a payload list, propagating the first error. -/
def buildAll {α : Type} (f : Dict → Except PyErr α) : List Dict → Except PyErr (List α)
  | [] => .ok []
  | d :: rest => do
    let r ← f d
    let tail ← buildAll f rest
    .ok (r :: tail)

/-- The normalized rows `confirm_exam` stages for one chosen payload:
the overall result, the subject results, the learning outcomes and the
questions, in source order.  Any `KeyError` aborts the request before the
commit, so nothing is persisted in that case. -/
def buildRows (eid : String) (p : ExtractionPayload) :
    Except PyErr (ExamResultRow × List SubjectResultRow × List LearningOutcomeRow × List QuestionRow) := do
  let overall ← match p.overall_result with
    | some d => Except.ok d
    | none => Except.error PyErr.keyError
  let er ← buildExamResult eid overall
  let subjects ← match p.subjects with
    | some l => Except.ok l
    | none => Except.error PyErr.keyError
  let srs ← buildAll (buildSubjectResult eid) subjects
  let los ← buildAll (buildLearningOutcome eid) p.learning_outcomes
  let qs ← buildAll (buildQuestion eid) p.questions
  .ok (er, srs, los, qs)

/-- The `/exams/{exam_id}/confirm` route handler (`confirm_exam`): look the
exam up, reject missing exams, already-confirmed exams, invalid sources
and unavailable payloads before creating anything; otherwise stage the
normalized rows, flip the exam to `confirmed`, and commit atomically. -/
def confirm_exam (exam_id data_source : String) (db : ConfirmDB) (now : ℕ) :
    ConfirmOutcome × ConfirmDB :=
  match db.exams.find? (fun e => decide (e.id = exam_id)) with
  | none => (.httpError 404 ("Exam with id " ++ exam_id ++ " not found"), db)
  | some exam =>
    if exam.status = "confirmed" then
      (.httpError 400 "Exam already confirmed", db)
    else if data_source ≠ "claude" ∧ data_source ≠ "local" then
      (.httpError 400 "data_source must be \x27claude\x27 or \x27local\x27", db)
    else
      let chosen : Except String ExtractionPayload :=
        if data_source = "claude" then
          match exam.claude_data with
          | none => .error "Claude data not available"
          | some p => .ok p
        else
          match exam.local_data with
          | none => .error "Local data not available"
          | some p => .ok p
      match chosen with
      | .error msg => (.httpError 400 msg, db)
      | .ok payload =>
        match buildRows exam.id payload with
        | .error e => (.pyError e, db)
        | .ok (er, srs, los, qs) =>
          let db' : ConfirmDB :=
            { db with
              exams := db.exams.map (fun e =>
                if e.id = exam.id then { e with status := "confirmed", confirmed_at := some now }
                else e)
              exam_results := db.exam_results ++ [er]
              subject_results := db.subject_results ++ srs
              learning_outcomes := db.learning_outcomes ++ los
              questions := db.questions ++ qs }
          (.success "Exam confirmed successfully" exam_id data_source "confirmed", db')

/-! ## General lemmas about the report synthesis -/

/-- A filtered severity bucket is nonempty exactly when some accumulated
issue carries that severity. -/
lemma filter_severity_nonempty (issues : List ValidationIssue) (s : String) :
    (issues.filter (fun i => decide (i.severity = s))).isEmpty = false ↔
      ∃ i ∈ issues, i.severity = s := by
  rw [List.isEmpty_eq_false_iff_exists_mem]
  constructor
  · rintro ⟨i, hi⟩
    rw [List.mem_filter] at hi
    exact ⟨i, hi.1, of_decide_eq_true hi.2⟩
  · rintro ⟨i, hi, hs⟩
    exact ⟨i, List.mem_filter.2 ⟨hi, decide_eq_true hs⟩⟩

/-- The status computed by `_generate_report` follows the documented
severity lattice. -/
lemma generateReport_status (issues : List ValidationIssue) :
    ((generateReport issues).status = "failed" ↔ ∃ i ∈ issues, i.severity = "error") ∧
    ((¬ ∃ i ∈ issues, i.severity = "error") →
      (((generateReport issues).status = "warning" ↔ ∃ i ∈ issues, i.severity = "warning") ∧
       ((¬ ∃ i ∈ issues, i.severity = "warning") → (generateReport issues).status = "passed"))) := by
  by_cases he : ∃ i ∈ issues, i.severity = "error"
  · have h1 : (issues.filter (fun i => decide (i.severity = "error"))).isEmpty = false :=
      (filter_severity_nonempty issues "error").2 he
    constructor
    · simp [generateReport, h1, he]
    · intro hne; exact absurd he hne
  · have h1 : (issues.filter (fun i => decide (i.severity = "error"))).isEmpty = true := by
      cases h : (issues.filter (fun i => decide (i.severity = "error"))).isEmpty
      · exact absurd ((filter_severity_nonempty issues "error").1 h) he
      · rfl
    by_cases hw : ∃ i ∈ issues, i.severity = "warning"
    · have h2 : (issues.filter (fun i => decide (i.severity = "warning"))).isEmpty = false :=
        (filter_severity_nonempty issues "warning").2 hw
      refine ⟨?_, fun _ => ⟨?_, fun hnw => absurd hw hnw⟩⟩
      · simp [generateReport, h1, h2, he]
      · simp [generateReport, h1, h2, hw]
    · have h2 : (issues.filter (fun i => decide (i.severity = "warning"))).isEmpty = true := by
        cases h : (issues.filter (fun i => decide (i.severity = "warning"))).isEmpty
        · exact absurd ((filter_severity_nonempty issues "warning").1 h) hw
        · rfl
      refine ⟨?_, fun _ => ⟨?_, fun _ => ?_⟩⟩
      · simp [generateReport, h1, h2, he]
      · simp [generateReport, h1, h2, hw]
      · simp [generateReport, h1, h2]

/-- A successful `validate` call returns exactly the report generated from
its own issue list. -/
lemma validate_ok_report {tolerance : ℚ} {c : ClaudeData} {l : LocalData}
    {r : ValidationReport} (h : validate tolerance c l = .ok r) :
    r = generateReport r.issues := by
  unfold validate at h
  rcases h1 : validateStudentInfo c.student l.student_info with e | si <;> rw [h1] at h
  · simp [Bind.bind, Except.bind] at h
  rcases h2 : validateOverallScores tolerance c.overall_result l.overall_scores with e | oi <;>
    rw [h2] at h
  · simp [Bind.bind, Except.bind] at h
  rcases h3 : validateSubjectScores tolerance c.subjects l.subject_scores with e | sui <;>
    rw [h3] at h
  · simp [Bind.bind, Except.bind] at h
  simp only [Bind.bind, Except.bind, Except.ok.injEq] at h
  subst h
  rfl

/-! ## Claim theorems -/

/-- C2: for every pair of input records, a report returned by `validate`
has status `failed` iff some issue has severity `error`; otherwise status
`warning` iff some issue has severity `warning`; otherwise status
`passed` (so zero issues yield `passed`). -/
theorem validate_status_invariant (tolerance : ℚ) (c : ClaudeData) (l : LocalData)
    (r : ValidationReport) (h : validate tolerance c l = .ok r) :
    (r.status = "failed" ↔ ∃ i ∈ r.issues, i.severity = "error") ∧
    ((¬ ∃ i ∈ r.issues, i.severity = "error") →
      ((r.status = "warning" ↔ ∃ i ∈ r.issues, i.severity = "warning") ∧
       ((¬ ∃ i ∈ r.issues, i.severity = "warning") → r.status = "passed"))) := by
  have hr := validate_ok_report h
  have := generateReport_status r.issues
  rw [← hr] at this
  exact this

/-- The two empty records compare clean: `validate` returns the report of
an empty issue list. -/
def passedReport : ValidationReport := generateReport []

/-- Witness for C2: at two empty records the call succeeds and the status
invariant holds for the returned report. -/
theorem validate_status_invariant_witness :
    (passedReport.status = "failed" ↔ ∃ i ∈ passedReport.issues, i.severity = "error") ∧
    ((¬ ∃ i ∈ passedReport.issues, i.severity = "error") →
      ((passedReport.status = "warning" ↔ ∃ i ∈ passedReport.issues, i.severity = "warning") ∧
       ((¬ ∃ i ∈ passedReport.issues, i.severity = "warning") → passedReport.status = "passed"))) :=
  validate_status_invariant (1 / 10) ⟨[], [], [], []⟩ ⟨[], [], [], []⟩ passedReport rfl

/-- C9: `validate` is free of side effects on its inputs and on storage:
as a state transformer it returns the world unchanged. -/
theorem validate_no_side_effects (tolerance : ℚ) (w : World) :
    (validateWorld tolerance w).1 = w :=
  rfl

/-- C10: the issue accumulator is overwritten on entry, so a service
carrying any previously accumulated issues behaves exactly like a freshly
constructed service with the same tolerance, and the returned report is
the pure function of the two records. -/
theorem validateRun_history_independent (tolerance : ℚ) (prior : List ValidationIssue)
    (c : ClaudeData) (l : LocalData) :
    ValidationService.validateRun ⟨tolerance, prior⟩ c l =
      ValidationService.validateRun ⟨tolerance, []⟩ c l ∧
    (ValidationService.validateRun ⟨tolerance, prior⟩ c l).2 = validate tolerance c l := by
  constructor
  · rfl
  · unfold ValidationService.validateRun validate
    rcases h1 : validateStudentInfo c.student l.student_info with e | si
    · simp [Bind.bind, Except.bind]
    rcases h2 : validateOverallScores tolerance c.overall_result l.overall_scores with e | oi
    · simp [Bind.bind, Except.bind]
    rcases h3 : validateSubjectScores tolerance c.subjects l.subject_scores with e | sui
    · simp [Bind.bind, Except.bind]
    simp [Bind.bind, Except.bind]

/-- C8: `confirm_exam` rejects an already-confirmed exam with a
descriptive message and leaves the whole database unchanged (no
normalized rows, no exam modification); likewise an unavailable chosen
source is rejected before any row is created. -/
theorem confirm_exam_rejections (db : ConfirmDB) (exam_id data_source : String)
    (now : ℕ) (exam : ExamRow)
    (hfind : db.exams.find? (fun e => decide (e.id = exam_id)) = some exam) :
    (exam.status = "confirmed" →
      confirm_exam exam_id data_source db now = (.httpError 400 "Exam already confirmed", db)) ∧
    (exam.status ≠ "confirmed" → data_source = "claude" → exam.claude_data = none →
      confirm_exam exam_id data_source db now = (.httpError 400 "Claude data not available", db)) ∧
    (exam.status ≠ "confirmed" → data_source = "local" → exam.local_data = none →
      confirm_exam exam_id data_source db now = (.httpError 400 "Local data not available", db)) := by
  refine ⟨fun hs => ?_, fun hs hds hcd => ?_, fun hs hds hld => ?_⟩
  · simp [confirm_exam, hfind, hs]
  · subst hds
    simp [confirm_exam, hfind, hs, hcd]
  · subst hds
    simp [confirm_exam, hfind, hs, hld]

/-- A database with one already-confirmed exam and one pending exam whose
payload columns are NULL. -/
def c8db : ConfirmDB :=
  ⟨[⟨"e1", "confirmed", none, none, some 0⟩, ⟨"e2", "pending_confirmation", none, none, none⟩],
   [], [], [], []⟩

/-- Witness for C8: the second confirmation of `e1` is rejected with the
database unchanged, and confirming `e2` from either unavailable source is
rejected with the database unchanged. -/
theorem confirm_exam_rejections_witness :
    confirm_exam "e1" "claude" c8db 7 = (.httpError 400 "Exam already confirmed", c8db) ∧
    confirm_exam "e2" "claude" c8db 7 = (.httpError 400 "Claude data not available", c8db) ∧
    confirm_exam "e2" "local" c8db 7 = (.httpError 400 "Local data not available", c8db) :=
  ⟨(confirm_exam_rejections c8db "e1" "claude" 7 ⟨"e1", "confirmed", none, none, some 0⟩
      (by decide)).1 (by decide),
   (confirm_exam_rejections c8db "e2" "claude" 7 ⟨"e2", "pending_confirmation", none, none, none⟩
      (by decide)).2.1 (by decide) rfl rfl,
   (confirm_exam_rejections c8db "e2" "local" 7 ⟨"e2", "pending_confirmation", none, none, none⟩
      (by decide)).2.2 (by decide) rfl rfl⟩

/-- C6 (counterexample): the numeric-match predicate is not reflexive on
every input: at `None` the `float()` coercion fails, which the code turns
into a non-match, so `numeric_match(None, None)` is `False`. -/
theorem numericMatch_not_reflexive_counterexample :
    numericMatch (1 / 10) .vnone .vnone = false :=
  rfl

/-- C6 (amended): the numeric-match predicate is reflexive on every input
that `float()` accepts (numbers and parseable numeric strings). -/
theorem numericMatch_reflexive_on_numeric (tolerance : ℚ) (v : PyVal) (q : ℚ)
    (h : pyFloat v = some q) :
    numericMatch tolerance v v = true := by
  simp [numericMatch, h]

/-- Witness for C6 (amended): reflexivity at the number 5. -/
theorem numericMatch_reflexive_on_numeric_witness :
    numericMatch (1 / 10) (.vnum 5) (.vnum 5) = true :=
  numericMatch_reflexive_on_numeric (1 / 10) (.vnum 5) 5 rfl

section RatReducible

attribute [local semireducible] Rat.add Rat.mul Rat.inv Rat.sub

/-- C4 (counterexample): the claimed zero-ish branch (average magnitude
below 0.01 compared absolutely at 0.01) does not exist in the code: at
`a = 0.001`, `b = 0.005` the average magnitude is 0.003 < 0.01 and
`|a - b| = 0.004 < 0.01`, so the claim predicts a match, but the code
only uses the absolute comparison when the average is exactly zero and
here computes a relative difference of 4/3 > 0.10, returning no match. -/
theorem numericMatch_zeroish_counterexample :
    ((|(1 : ℚ) / 1000| + |(5 : ℚ) / 1000|) / 2 < 1 / 100) ∧
    (|(1 : ℚ) / 1000 - 5 / 1000| < 1 / 100) ∧
    numericMatch (1 / 10) (.vnum (1 / 1000)) (.vnum (5 / 1000)) = false := by
  refine ⟨by decide, by decide, by decide⟩

/-- C4 (amended): on numbers, the predicate matches iff the values are
exactly equal or the symmetric relative difference is within the
tolerance; the absolute branch of the code fires only when the average
magnitude is exactly zero, which exact equality already covers.  With the
default tolerance 0.10, 88 vs 90 is a match. -/
theorem numericMatch_characterization :
    (∀ (a b tolerance : ℚ),
      numericMatch tolerance (.vnum a) (.vnum b) = true ↔
        (a = b ∨ |a - b| / ((|a| + |b|) / 2) ≤ tolerance)) ∧
    numericMatch (1 / 10) (.vnum 88) (.vnum 90) = true := by
  constructor
  · intro a b tolerance
    by_cases hab : a = b
    · simp [numericMatch, pyFloat, hab]
    · have havg : ¬((|a| + |b|) / 2 = 0) := by
        intro h
        have hsum : |a| + |b| = 0 := by linarith
        have ha : |a| = 0 := by
          have := abs_nonneg a
          have := abs_nonneg b
          linarith
        have hb : |b| = 0 := by
          have := abs_nonneg a
          linarith
        exact hab (by rw [abs_eq_zero.mp ha, abs_eq_zero.mp hb])
      simp [numericMatch, pyFloat, hab, havg]
  · decide

end RatReducible

/-- A value other than `None` under `.get` means the key is present. -/
lemma pyGet_hasKey {d : Dict} {k : String} {v : PyVal} (h : pyGet d k = v)
    (hne : v ≠ .vnone) : hasKey d k = true := by
  unfold pyGet at h
  unfold hasKey
  cases hk : getKey? d k
  · rw [hk] at h
    exact absurd h.symm hne
  · rfl

/-- A successful `validate` call decomposes into the four passes, with the
issue list being their concatenation in source order. -/
lemma validate_ok_issues {tolerance : ℚ} {c : ClaudeData} {l : LocalData}
    {r : ValidationReport} (h : validate tolerance c l = .ok r) :
    ∃ si oi sui,
      validateStudentInfo c.student l.student_info = .ok si ∧
      validateOverallScores tolerance c.overall_result l.overall_scores = .ok oi ∧
      validateSubjectScores tolerance c.subjects l.subject_scores = .ok sui ∧
      r.issues = si ++ oi ++ sui ++ validateMetadata c.exam l.metadata := by
  unfold validate at h
  rcases h1 : validateStudentInfo c.student l.student_info with e | si <;> rw [h1] at h
  · simp [Bind.bind, Except.bind] at h
  rcases h2 : validateOverallScores tolerance c.overall_result l.overall_scores with e | oi <;>
    rw [h2] at h
  · simp [Bind.bind, Except.bind] at h
  rcases h3 : validateSubjectScores tolerance c.subjects l.subject_scores with e | sui <;>
    rw [h3] at h
  · simp [Bind.bind, Except.bind] at h
  simp only [Bind.bind, Except.bind, Except.ok.injEq] at h
  refine ⟨si, oi, sui, rfl, rfl, rfl, ?_⟩
  rw [← h]
  rfl


/-- When the three keys are present, the first two hold numbers and the
reported net score fails the 5% comparison against `correct - wrong / 4`,
the self-consistency check emits exactly its error issue. -/
lemma netCalcIssues_mismatch {cs : Dict} {cq wq : ℚ} {av : PyVal}
    (hc : pyGet cs "total_correct" = .vnum cq)
    (hw : pyGet cs "total_wrong" = .vnum wq)
    (hn : hasKey cs "net_score" = true)
    (hav : pyGet cs "net_score" = av)
    (hmm : numericMatch (5 / 100) (.vnum (cq - wq / 4)) av = false) :
    netCalcIssues cs = .ok [⟨"overall.net_calculation", av, .vnum (cq - wq / 4), "error"⟩] := by
  have h1 : hasKey cs "total_correct" = true := pyGet_hasKey hc (by simp)
  have h2 : hasKey cs "total_wrong" = true := pyGet_hasKey hw (by simp)
  simp [netCalcIssues, h1, h2, hn, hc, hw, hav, hmm]

/-- With a truthy local scores dict the overall pass returns the field
comparisons followed by whatever the self-consistency check produced. -/
lemma validateOverallScores_decomp (tolerance : ℚ) {cs ls : Dict}
    {L : List ValidationIssue} (hbl : dictTruthy ls = true)
    (hnet : netCalcIssues cs = .ok L) :
    validateOverallScores tolerance cs ls =
      .ok ((overallFields.map (compareOverallField tolerance cs ls)).flatten ++ L) := by
  simp [validateOverallScores, hbl, hnet, Bind.bind, Except.bind]

/-- The claude record of the net-score scenarios: reported net 40 against
the recomputed 53 - 14/4 = 49.5. -/
def c1claude : ClaudeData :=
  ⟨[], [("total_correct", .vnum 53), ("total_wrong", .vnum 14), ("net_score", .vnum 40)], [], []⟩

/-- A local record whose overall-scores section is empty. -/
def c1emptyLocal : LocalData := ⟨[], [], [], []⟩

section RatReducibleB

attribute [local semireducible] Rat.add Rat.mul Rat.inv Rat.sub

/-- C1 (counterexample): a primary record whose reported net score 40
differs from its recomputed 53 - 14/4 = 49.5 by far more than 5%, paired
with a baseline whose overall-scores section is empty, yields a report
with no issues at all: the early return on a falsy baseline dict skips
the net-calculation self-check, contradicting the claim that the error
issue appears regardless of the baseline. -/
theorem validate_netCalc_skipped_counterexample :
    numericMatch (5 / 100) (.vnum ((53 : ℚ) - 14 / 4)) (.vnum 40) = false ∧
    validate (1 / 10) c1claude c1emptyLocal = .ok (generateReport []) ∧
    (generateReport ([] : List ValidationIssue)).issues = [] :=
  ⟨by decide, by decide, rfl⟩

end RatReducibleB

/-- C1 (amended): whenever the baseline's overall-scores dict is nonempty
(truthy), a primary record whose reported net score fails the 5%
comparison against `total_correct - total_wrong / 4` always yields an
error-severity issue at `overall.net_calculation` in a successful
report. -/
theorem validate_netCalc_error_with_truthy_baseline
    (tolerance : ℚ) (c : ClaudeData) (l : LocalData) (r : ValidationReport)
    (cq wq : ℚ) (av : PyVal)
    (hbl : dictTruthy l.overall_scores = true)
    (hc : pyGet c.overall_result "total_correct" = .vnum cq)
    (hw : pyGet c.overall_result "total_wrong" = .vnum wq)
    (hn : hasKey c.overall_result "net_score" = true)
    (hav : pyGet c.overall_result "net_score" = av)
    (hmm : numericMatch (5 / 100) (.vnum (cq - wq / 4)) av = false)
    (hok : validate tolerance c l = .ok r) :
    ∃ i ∈ r.issues, i.field = "overall.net_calculation" ∧ i.severity = "error" := by
  obtain ⟨si, oi, sui, _, h2, _, hiss⟩ := validate_ok_issues hok
  have hover := validateOverallScores_decomp tolerance hbl
    (netCalcIssues_mismatch hc hw hn hav hmm)
  rw [h2] at hover
  have hoi := Except.ok.inj hover
  refine ⟨⟨"overall.net_calculation", av, .vnum (cq - wq / 4), "error"⟩, ?_, rfl, rfl⟩
  rw [hiss, hoi]
  simp [List.mem_append]

/-- A local record whose overall-scores dict is nonempty but contributes
no comparable field. -/
def c1truthyLocal : LocalData := ⟨[], [("total_questions", .vnone)], [], []⟩

/-- The report produced for `c1claude` against `c1truthyLocal`. -/
def c1report : ValidationReport :=
  generateReport [⟨"overall.net_calculation", .vnum 40, .vnum (53 - 14 / 4), "error"⟩]

section RatReducibleC

attribute [local semireducible] Rat.add Rat.mul Rat.inv Rat.sub

/-- Witness for C1 (amended): with a truthy baseline dict the
inconsistent primary record of scenario 2 produces the error issue. -/
theorem validate_netCalc_error_witness :
    ∃ i ∈ c1report.issues, i.field = "overall.net_calculation" ∧ i.severity = "error" :=
  validate_netCalc_error_with_truthy_baseline (1 / 10) c1claude c1truthyLocal c1report
    53 14 (.vnum 40) (by decide) (by decide) (by decide) (by decide) (by decide)
    (by decide) (by decide)

end RatReducibleC

/-- A value on which Python `.lower()` cannot raise in the fuzzy match:
a string or `None` (the falsy guard screens `None` out). -/
def stringish : PyVal → Bool
  | .vnum _ => false
  | .vstr _ => true
  | .vnone => true

/-- The net-score self-check cannot raise: either one of the three keys is
absent, or the two operands of the recomputation are numbers. -/
def netArithSafe (cs : Dict) : Bool :=
  !(hasKey cs "total_correct" && hasKey cs "total_wrong" && hasKey cs "net_score") ||
  (match pyGet cs "total_correct", pyGet cs "total_wrong" with
   | .vnum _, .vnum _ => true
   | _, _ => false)

/-- The fuzzy match succeeds on stringish values. -/
lemma fuzzyMatch_ok_of_stringish {v1 v2 : PyVal} (th : ℚ)
    (h1 : stringish v1 = true) (h2 : stringish v2 = true) :
    ∃ b, fuzzyMatch v1 v2 th = .ok b := by
  unfold fuzzyMatch
  split
  · exact ⟨false, rfl⟩
  · cases v1 <;> cases v2 <;> simp_all [stringish, truthy]

/-- The student comparisons succeed on stringish values. -/
lemma checkStudentField_ok_of_stringish {cs ls : Dict} {key : String}
    (label : String) (th : ℚ) (sev : String)
    (h1 : stringish (pyGet cs key) = true) (h2 : stringish (pyGet ls key) = true) :
    ∃ out, checkStudentField cs ls key label th sev = .ok out := by
  unfold checkStudentField
  split
  · have h1' : stringish (pyGetD cs key (.vstr "")) = true := by
      unfold pyGet at h1
      unfold pyGetD
      cases hk : getKey? cs key
      · rfl
      · rw [hk] at h1
        exact h1
    obtain ⟨b, hb⟩ := fuzzyMatch_ok_of_stringish th h1' h2
    rw [hb]
    cases b
    · exact ⟨_, rfl⟩
    · exact ⟨_, rfl⟩
  · exact ⟨[], rfl⟩

/-- The student pass succeeds when the four relevant values are stringish. -/
lemma validateStudentInfo_ok_of_stringish {cs ls : Dict}
    (hn1 : stringish (pyGet cs "name") = true) (hn2 : stringish (pyGet ls "name") = true)
    (hs1 : stringish (pyGet cs "school") = true) (hs2 : stringish (pyGet ls "school") = true) :
    ∃ out, validateStudentInfo cs ls = .ok out := by
  unfold validateStudentInfo
  split
  · exact ⟨[], rfl⟩
  · obtain ⟨n, hnn⟩ := checkStudentField_ok_of_stringish "student.name" (8 / 10) "warning" hn1 hn2
    obtain ⟨s, hss⟩ := checkStudentField_ok_of_stringish "student.school" (7 / 10) "info" hs1 hs2
    rw [hnn, hss]
    exact ⟨n ++ s, rfl⟩

/-- The self-check succeeds under `netArithSafe`. -/
lemma netCalcIssues_ok_of_safe {cs : Dict} (h : netArithSafe cs = true) :
    ∃ L, netCalcIssues cs = .ok L := by
  unfold netArithSafe at h
  unfold netCalcIssues
  split
  · rcases hg : pyGet cs "total_correct" <;> rcases hw : pyGet cs "total_wrong" <;>
      simp_all [Bool.or_eq_true, Bool.not_eq_true, Bool.and_eq_true]
    · split
      · exact ⟨[], rfl⟩
      · exact ⟨_, rfl⟩
  · exact ⟨[], rfl⟩

/-- The overall pass succeeds under `netArithSafe`. -/
lemma validateOverallScores_ok_of_safe {cs : Dict} (tolerance : ℚ) (ls : Dict)
    (h : netArithSafe cs = true) :
    ∃ L, validateOverallScores tolerance cs ls = .ok L := by
  unfold validateOverallScores
  split
  · exact ⟨[], rfl⟩
  · obtain ⟨L, hL⟩ := netCalcIssues_ok_of_safe h
    rw [hL]
    exact ⟨_, rfl⟩

/-- The name-lookup construction succeeds when every local subject entry
has a `subject_name` key. -/
lemma buildLocalByName_ok_of_hasKey {ls : List Dict}
    (h : ∀ s ∈ ls, hasKey s "subject_name" = true) :
    ∃ m, buildLocalByName ls = .ok m := by
  induction ls with
  | nil => exact ⟨[], rfl⟩
  | cons s rest ih =>
    have hs := h s (by simp)
    unfold hasKey at hs
    obtain ⟨tail, htail⟩ := ih (fun x hx => h x (by simp [hx]))
    cases hk : getKey? s "subject_name"
    · rw [hk] at hs
      simp at hs
    · rename_i name
      refine ⟨(name, s) :: tail, ?_⟩
      unfold buildLocalByName
      rw [hk, htail]
      rfl

/-- The subject pass succeeds when every local subject entry has a
`subject_name` key. -/
lemma validateSubjectScores_ok_of_hasKey {localSubjects : List Dict}
    (tolerance : ℚ) (claudeSubjects : List Dict)
    (h : ∀ s ∈ localSubjects, hasKey s "subject_name" = true) :
    ∃ L, validateSubjectScores tolerance claudeSubjects localSubjects = .ok L := by
  unfold validateSubjectScores
  split
  · exact ⟨[], rfl⟩
  · obtain ⟨m, hm⟩ := buildLocalByName_ok_of_hasKey h
    rw [hm]
    exact ⟨_, rfl⟩

/-- C3 (counterexample): `validate` can raise.  A baseline record whose
subject list contains one entry without a `subject_name` key makes the
dict comprehension of the subject pass raise `KeyError`, so no report is
returned. -/
theorem validate_raises_counterexample :
    validate (1 / 10) ⟨[], [], [], []⟩ ⟨[], [], [[]], []⟩ = .error .keyError := by
  decide

/-- C3 (amended): `validate` returns a report whenever the name and school
values on both sides are strings or absent, the primary overall section
either misses one of the three net keys or holds numbers for the two
operand keys, and every baseline subject entry carries a `subject_name`
key; outside these conditions it can raise (`KeyError`, `TypeError` or
`AttributeError`). -/
theorem validate_total_under_conditions (tolerance : ℚ) (c : ClaudeData) (l : LocalData)
    (hn1 : stringish (pyGet c.student "name") = true)
    (hn2 : stringish (pyGet l.student_info "name") = true)
    (hs1 : stringish (pyGet c.student "school") = true)
    (hs2 : stringish (pyGet l.student_info "school") = true)
    (hnet : netArithSafe c.overall_result = true)
    (hsub : ∀ s ∈ l.subject_scores, hasKey s "subject_name" = true) :
    ∃ r, validate tolerance c l = .ok r := by
  obtain ⟨si, h1⟩ := validateStudentInfo_ok_of_stringish hn1 hn2 hs1 hs2
  obtain ⟨oi, h2⟩ := validateOverallScores_ok_of_safe tolerance l.overall_scores hnet
  obtain ⟨sui, h3⟩ := validateSubjectScores_ok_of_hasKey tolerance c.subjects hsub
  refine ⟨generateReport (si ++ oi ++ sui ++ validateMetadata c.exam l.metadata), ?_⟩
  unfold validate
  rw [h1, h2, h3]
  rfl

/-- Witness for C3 (amended): two empty records satisfy all conditions and
produce a report. -/
theorem validate_total_witness :
    ∃ r, validate (1 / 10) ⟨[], [], [], []⟩ ⟨[], [], [], []⟩ = .ok r :=
  validate_total_under_conditions (1 / 10) ⟨[], [], [], []⟩ ⟨[], [], [], []⟩
    (by decide) (by decide) (by decide) (by decide) (by decide) (by simp)

/-- A claude record reporting only an overall question count. -/
def c5claude : ClaudeData := ⟨[], [("total_questions", .vnum 10)], [], []⟩

/-- A local record with a present student name and an unparseable numeric
string for the question count. -/
def c5local : LocalData :=
  ⟨[("name", .vstr "Ali Veli")], [("total_questions", .vstr "abc")], [], []⟩

section RatReducibleD

attribute [local semireducible] Rat.add Rat.mul Rat.inv Rat.sub

/-- C5 (counterexample): an absent claude-side name with a present local
name produces a `student.name` warning issue, and an unparseable local
numeric string produces an `overall.total_questions` error issue — the
claim that absent or non-comparable fields never produce an issue fails
on both counts at this input. -/
theorem validate_absent_field_counterexample :
    pyGet c5claude.student "name" = .vnone ∧
    pyFloatOfString "abc" = none ∧
    validate (1 / 10) c5claude c5local =
      .ok (generateReport
        [⟨"student.name", .vnone, .vstr "Ali Veli", "warning"⟩,
         ⟨"overall.total_questions", .vnum 10, .vstr "abc", "error"⟩]) :=
  ⟨rfl, rfl, by decide⟩

end RatReducibleD

/-- C5 (amended): values absent (`None`) on either side produce no issue
for a numeric field, and an absent or falsy local-side name or school
skips that comparison entirely; but a claude-side number against an
unparseable local-side numeric string produces the mismatch issue for
that field (rather than a crash), and an absent claude-side name against
a present local-side name produces a `student.name` issue. -/
theorem absent_fields_skipped :
    (∀ (tolerance : ℚ) (cs ls : Dict) (f : String),
      pyGet cs f = .vnone ∨ pyGet ls f = .vnone →
      compareOverallField tolerance cs ls f = []) ∧
    (∀ (tolerance : ℚ) (name : PyVal) (cs lsub : Dict) (f : String),
      pyGet cs f = .vnone ∨ pyGet lsub f = .vnone →
      compareSubjectField tolerance name cs lsub f = []) ∧
    (∀ (cs ls : Dict) (key label : String) (th : ℚ) (sev : String),
      truthy (pyGet ls key) = false →
      checkStudentField cs ls key label th sev = .ok []) ∧
    (∀ (tolerance : ℚ) (cs ls : Dict) (f : String) (q : ℚ) (s : String),
      pyGet cs f = .vnum q → pyGet ls f = .vstr s → pyFloatOfString s = none →
      compareOverallField tolerance cs ls f =
        [⟨"overall." ++ f, .vnum q, .vstr s, overallSeverity f⟩]) := by
  refine ⟨?_, ?_, ?_, ?_⟩
  · intro tolerance cs ls f h
    rcases h with h | h <;> simp [compareOverallField, h]
  · intro tolerance name cs lsub f h
    rcases h with h | h <;> simp [compareSubjectField, h]
  · intro cs ls key label th sev h
    simp [checkStudentField, h]
  · intro tolerance cs ls f q s hq hs hnone
    simp [compareOverallField, hq, hs, numericMatch, pyFloat, hnone]

/-- Witness for C5 (amended): each conjunct instantiated concretely — an
absent claude value skips the overall and subject comparisons, a falsy
local name skips the student comparison, and the string `"abc"` against
the number 10 yields exactly the error issue. -/
theorem absent_fields_skipped_witness :
    compareOverallField (1 / 10) [] [("total_questions", .vnum 10)] "total_questions" = [] ∧
    compareSubjectField (1 / 10) (.vstr "Matematik") [] [("correct", .vnum 3)] "correct" = [] ∧
    checkStudentField [] [] "name" "student.name" (8 / 10) "warning" = .ok [] ∧
    compareOverallField (1 / 10) [("total_questions", .vnum 10)]
        [("total_questions", .vstr "abc")] "total_questions" =
      [⟨"overall.total_questions", .vnum 10, .vstr "abc", overallSeverity "total_questions"⟩] :=
  ⟨absent_fields_skipped.1 (1 / 10) [] [("total_questions", .vnum 10)] "total_questions"
      (Or.inl rfl),
   absent_fields_skipped.2.1 (1 / 10) (.vstr "Matematik") [] [("correct", .vnum 3)] "correct"
      (Or.inl rfl),
   absent_fields_skipped.2.2.1 [] [] "name" "student.name" (8 / 10) "warning" rfl,
   absent_fields_skipped.2.2.2 (1 / 10) [("total_questions", .vnum 10)]
      [("total_questions", .vstr "abc")] "total_questions" 10 "abc" rfl rfl rfl⟩

/-- Every issue emitted by a per-subject field comparison is a warning. -/
lemma mem_compareSubjectField_severity {tolerance : ℚ} {name : PyVal} {cs lsub : Dict}
    {f : String} {i : ValidationIssue}
    (h : i ∈ compareSubjectField tolerance name cs lsub f) : i.severity = "warning" := by
  unfold compareSubjectField at h
  split at h
  · split at h
    · simp at h
    · rw [List.mem_singleton] at h
      rw [h]
  · simp at h

/-- Every issue emitted for one claude subject is a warning. -/
lemma mem_subjectIssuesFor_severity {tolerance : ℚ} {m : List (PyVal × Dict)} {cs : Dict}
    {i : ValidationIssue} (h : i ∈ subjectIssuesFor tolerance m cs) :
    i.severity = "warning" := by
  unfold subjectIssuesFor at h
  split at h
  · rw [List.mem_flatten] at h
    obtain ⟨L, hL, hiL⟩ := h
    rw [List.mem_map] at hL
    obtain ⟨f, _, rfl⟩ := hL
    exact mem_compareSubjectField_severity hiL
  · simp at h

/-- Every key in the subject lookup comes from a local subject entry. -/
lemma buildLocalByName_keys {ls : List Dict} {m : List (PyVal × Dict)}
    (h : buildLocalByName ls = .ok m) :
    ∀ p ∈ m, ∃ s ∈ ls, getKey? s "subject_name" = some p.1 := by
  induction ls generalizing m with
  | nil =>
    unfold buildLocalByName at h
    obtain rfl := Except.ok.inj h
    intro p hp
    simp at hp
  | cons s rest ih =>
    unfold buildLocalByName at h
    cases hk : getKey? s "subject_name" <;> rw [hk] at h
    · simp at h
    · rename_i name
      cases ht : buildLocalByName rest <;> rw [ht] at h
      · simp [Bind.bind, Except.bind] at h
      · rename_i tail
        simp only [Bind.bind, Except.bind, Except.ok.injEq] at h
        intro p hp
        rw [← h] at hp
        rcases List.mem_cons.mp hp with hp | hp
        · exact ⟨s, by simp, by rw [hk, hp]⟩
        · obtain ⟨s', hs', hkey⟩ := ih ht p hp
          exact ⟨s', by simp [hs'], hkey⟩

/-- Lookup misses every map whose keys all differ from the query. -/
lemma dictLookupLast_none {m : List (PyVal × Dict)} {k : PyVal}
    (h : ∀ p ∈ m, p.1 ≠ k) : dictLookupLast m k = none := by
  unfold dictLookupLast
  have : m.reverse.find? (fun p => decide (p.1 = k)) = none :=
    List.find?_eq_none.2 (fun p hp => by
      simpa using h p (List.mem_reverse.mp hp))
  rw [this]
  rfl

/-- A claude subject whose name has no local counterpart contributes no
issues. -/
lemma subjectIssuesFor_skip {tolerance : ℚ} {m : List (PyVal × Dict)} {cs : Dict}
    (h : dictLookupLast m (pyGet cs "subject_name") = none) :
    subjectIssuesFor tolerance m cs = [] := by
  simp [subjectIssuesFor, h]

/-- C7: every issue produced by the per-subject pass has severity
`warning`, and a primary subject absent by name from the baseline record
contributes nothing: deleting it from the primary list leaves the pass
output unchanged. -/
theorem subject_pass_warnings_and_skip :
    (∀ (tolerance : ℚ) (cSubs lSubs : List Dict) (L : List ValidationIssue),
      validateSubjectScores tolerance cSubs lSubs = .ok L →
      ∀ i ∈ L, i.severity = "warning") ∧
    (∀ (tolerance : ℚ) (pre post : List Dict) (cs : Dict) (lSubs : List Dict),
      (∀ s ∈ lSubs, getKey? s "subject_name" ≠ some (pyGet cs "subject_name")) →
      validateSubjectScores tolerance (pre ++ cs :: post) lSubs =
        validateSubjectScores tolerance (pre ++ post) lSubs) := by
  constructor
  · intro tolerance cSubs lSubs L h i hi
    unfold validateSubjectScores at h
    split at h
    · obtain rfl := Except.ok.inj h
      simp at hi
    · cases hm : buildLocalByName lSubs <;> rw [hm] at h
      · simp [Bind.bind, Except.bind] at h
      · simp only [Bind.bind, Except.bind, Except.ok.injEq] at h
        rw [← h] at hi
        rw [List.mem_flatten] at hi
        obtain ⟨L', hL', hiL'⟩ := hi
        rw [List.mem_map] at hL'
        obtain ⟨cs, _, rfl⟩ := hL'
        exact mem_subjectIssuesFor_severity hiL'
  · intro tolerance pre post cs lSubs hnames
    unfold validateSubjectScores
    split
    · rfl
    · cases hm : buildLocalByName lSubs
      · simp [Bind.bind, Except.bind]
      · rename_i m
        have hskip : subjectIssuesFor tolerance m cs = [] := by
          refine subjectIssuesFor_skip (dictLookupLast_none ?_)
          intro p hp hpk
          obtain ⟨s, hs, hkey⟩ := buildLocalByName_keys hm p hp
          exact hnames s hs (by rw [hkey, hpk])
        simp [Bind.bind, Except.bind, List.map_append, List.flatten_append, hskip]

section RatReducibleE

attribute [local semireducible] Rat.add Rat.mul Rat.inv Rat.sub

/-- Witness for C7: a disagreeing Matematik subject yields only warning
issues, and a Matematik subject missing from the baseline (which only
knows Fizik) contributes nothing. -/
theorem subject_pass_warnings_and_skip_witness :
    (∀ i ∈ [ValidationIssue.mk "subject.Matematik.correct" (.vnum 30) (.vnum 50) "warning"],
      i.severity = "warning") ∧
    validateSubjectScores (1 / 10)
        [[("subject_name", .vstr "Matematik"), ("correct", .vnum 30)]]
        [[("subject_name", .vstr "Fizik")]] =
      validateSubjectScores (1 / 10) [] [[("subject_name", .vstr "Fizik")]] :=
  ⟨subject_pass_warnings_and_skip.1 (1 / 10)
      [[("subject_name", .vstr "Matematik"), ("correct", .vnum 30)]]
      [[("subject_name", .vstr "Matematik"), ("correct", .vnum 50)]]
      [ValidationIssue.mk "subject.Matematik.correct" (.vnum 30) (.vnum 50) "warning"]
      (by decide),
   subject_pass_warnings_and_skip.2 (1 / 10) [] []
      [("subject_name", .vstr "Matematik"), ("correct", .vnum 30)]
      [[("subject_name", .vstr "Fizik")]] (by decide)⟩

end RatReducibleE

end DenemeAnaliz
